import Mathlib

/-!
Shallow embedding of the HTTP instrumentation engine of
`openwpm-webext-instrumentation` (src/background/http-instrument.ts,
here `src/unnamed/part_000`), together with proofs of the specification
claims about it.

Host browser APIs (Date, URL, browser.tabs, the webRequest event
channels) and repository library files that are not under `src/`
(string-utils, pending-request, pending-response, http-post-parser) are
modelled at their interface boundary; every such model carries a doc
comment saying what it stands for.  Everything else is translated
directly from the TypeScript of `HttpInstrument`.
-/

/-- Whether the first character list is a prefix of the second. -/
def charsPrefOf : List Char → List Char → Bool
  | [], _ => true
  | _ :: _, [] => false
  | a :: as, b :: bs => a == b && charsPrefOf as bs

/-- Whether `pat` occurs as a contiguous run inside the character list. -/
def charsInfixOf (pat : List Char) : List Char → Bool
  | [] => charsPrefOf pat []
  | c :: rest => charsPrefOf pat (c :: rest) || charsInfixOf pat rest

/-- JS `s.indexOf(pat) !== -1` (equivalently `> -1`): `pat` occurs as a
substring of `s`. -/
def hasSubstring (s pat : String) : Bool :=
  charsInfixOf pat.data s.data

/-- JS `s.toLowerCase()` as used on ASCII header names: lower-case every
character. -/
def stringToLower (s : String) : String :=
  ⟨s.data.map Char.toLower⟩

/-- Modelled from the spec: `escapeString` from `../lib/string-utils` is not
under `src/`; the spec (§1) treats string-escaping/serialization helpers as
out-of-scope collaborators, so it is modelled as the identity on present
strings and the JS string rendering of an absent value otherwise. -/
def escapeString : Option String → String
  | some s => s
  | none => "undefined"

/-- Modelled from the spec: `boolToInt` from `../lib/string-utils` is not
under `src/`; the spec's scenarios (`is_XHR=0`, `is_cached=1`) fix it as the
usual 0/1 encoding of booleans. -/
def boolToInt (b : Bool) : Int :=
  if b then 1 else 0

/-- Two-digit zero padding, for the ISO-8601 rendering. -/
def natPad2 (n : Nat) : String :=
  if n < 10 then "0" ++ toString n else toString n

/-- Three-digit zero padding, for the ISO-8601 rendering. -/
def natPad3 (n : Nat) : String :=
  if n < 10 then "00" ++ toString n
  else if n < 100 then "0" ++ toString n
  else toString n

/-- Four-digit zero padding, for the ISO-8601 rendering. -/
def natPad4 (n : Nat) : String :=
  if n < 10 then "000" ++ toString n
  else if n < 100 then "00" ++ toString n
  else if n < 1000 then "0" ++ toString n
  else toString n

/-- Gregorian civil date (year, month, day) from a count of days since
1970-01-01, the standard era-based conversion used to model the host
`Date` object. -/
def civilFromDays (z0 : Int) : Int × Nat × Nat :=
  let z := z0 + 719468
  let era := z.fdiv 146097
  let doe := (z - era * 146097).toNat
  let yoe := (doe - doe / 1460 + doe / 36524 - doe / 146096) / 365
  let doy := doe - (365 * yoe + yoe / 4 - yoe / 100)
  let mp := (5 * doy + 2) / 153
  let d := doy - (153 * mp + 2) / 5 + 1
  let m := if mp < 10 then mp + 3 else mp - 9
  let y := (yoe : Int) + era * 400
  (if m <= 2 then y + 1 else y, m, d)

/-- Model of the host's `new Date(ms).toISOString()`: the ISO-8601 UTC
rendering of a timestamp in milliseconds since the epoch. -/
def dateToISOString (t : Int) : String :=
  let days := t.fdiv 86400000
  let msOfDay := (t - days * 86400000).toNat
  let ymd := civilFromDays days
  let y := ymd.1
  let m := ymd.2.1
  let d := ymd.2.2
  let hh := msOfDay / 3600000
  let mm := msOfDay % 3600000 / 60000
  let ss := msOfDay % 60000 / 1000
  let ms := msOfDay % 1000
  (if y < 0 then "-" ++ natPad4 (-y).toNat else natPad4 y.toNat) ++ "-" ++
    natPad2 m ++ "-" ++ natPad2 d ++ "T" ++ natPad2 hh ++ ":" ++ natPad2 mm ++
    ":" ++ natPad2 ss ++ "." ++ natPad3 ms ++ "Z"

/-- An HTTP header as delivered by the webRequest events: a name/value pair. -/
structure HttpHeader where
  name : String
  value : String
deriving DecidableEq, Repr

/-- Payload of an `onBeforeRequest` (body-stage) event, the fields the
instrument reads. `requestBody` is the raw upload fragment when present. -/
structure WebRequestOnBeforeRequestEventDetails where
  requestId : Nat
  url : String
  originUrl : Option String
  type : String
  requestBody : Option String
deriving DecidableEq, Repr

/-- Payload of an `onBeforeSendHeaders` (headers-stage) event, the fields the
instrument reads. -/
structure WebRequestOnBeforeSendHeadersEventDetails where
  requestId : Nat
  url : String
  method : String
  originUrl : Option String
  documentUrl : Option String
  requestHeaders : Option (List HttpHeader)
  timeStamp : Int
  type : String
  frameId : Nat
  tabId : Nat
  parentFrameId : Int
  frameAncestors : String
deriving DecidableEq, Repr

/-- Payload of an `onBeforeRedirect` (redirect-stage) event, the fields the
instrument reads. -/
structure WebRequestOnBeforeRedirectEventDetails where
  requestId : Nat
  url : String
  originUrl : Option String
  timeStamp : Int
deriving DecidableEq, Repr

/-- Payload of an `onCompleted` (completion-stage) event, the fields the
instrument reads. -/
structure WebRequestOnCompletedEventDetails where
  requestId : Nat
  url : String
  method : String
  originUrl : Option String
  fromCache : Bool
  statusCode : Nat
  statusLine : String
  timeStamp : Int
  responseHeaders : Option (List HttpHeader)
  type : String
deriving DecidableEq, Repr

/-- The `http_requests` record assembled by `onBeforeSendHeadersHandler`
(schema `HttpRequest`).  `headers` keeps the ordered list of escaped
name/value pairs; the final `JSON.stringify` of that list is host
serialization and is modelled by the list itself. -/
structure HttpRequest where
  crawl_id : Nat
  request_id : Nat
  url : String
  method : String
  time_stamp : String
  headers : List (List String)
  post_body : Option String
  is_XHR : Int
  is_full_page : Int
  is_frame_load : Int
  triggering_origin : String
  loading_origin : String
  loading_href : String
  resource_type : String
  top_level_url : String
  parent_frame_id : Int
  frame_ancestors : String
deriving DecidableEq, Repr

/-- The `http_responses` record assembled by `onCompletedHandler` (schema
`HttpResponse`).  `content_hash` is `none` until (and unless) the code
assigns it. -/
structure HttpResponse where
  crawl_id : Nat
  request_id : Nat
  is_cached : Int
  url : String
  method : String
  response_status : Nat
  response_status_text : String
  time_stamp : String
  headers : List (List String)
  location : String
  content_hash : Option String
deriving DecidableEq, Repr

/-- The `http_redirects` record assembled by `onBeforeRedirectHandler`
(schema `HttpRedirect`); `new_request_id` is nullable. -/
structure HttpRedirect where
  crawl_id : Nat
  old_request_id : Nat
  new_request_id : Option Nat
  time_stamp : String
deriving DecidableEq, Repr

/-- A record handed to the data sink, tagged by its shape. -/
inductive Record where
  | request (r : HttpRequest)
  | response (r : HttpResponse)
  | redirect (r : HttpRedirect)
deriving DecidableEq, Repr

/-- An observable call into the data-sink collaborator
(`saveRecord` / `saveContent` / `logError`, spec §6). -/
inductive Effect where
  | saveRecord (table : String) (record : Record)
  | saveContent (content : String) (contentHash : String)
  | logError (message : String)
deriving DecidableEq, Repr

/-- Whether an effect is a `logError` call. -/
def Effect.isLogError : Effect → Bool
  | .logError _ => true
  | _ => false

/-- Whether an effect is a `saveRecord` call against the given table. -/
def Effect.isSaveRecordTo (table : String) : Effect → Bool
  | .saveRecord t _ => t == table
  | _ => false

/-- Modelled from the spec: the per-transaction `PendingRequest` buffer of
`../lib/pending-request` is not under `src/`; per spec §3/§4.1 it holds the
two event fragments, each a single-assignment slot resolved by its event. -/
structure PendingRequest where
  onBeforeRequestEventDetails : Option WebRequestOnBeforeRequestEventDetails
  onBeforeSendHeadersEventDetails :
    Option WebRequestOnBeforeSendHeadersEventDetails
deriving DecidableEq, Repr

/-- The empty `PendingRequest` created lazily on first reference. -/
def PendingRequest.empty : PendingRequest := ⟨none, none⟩

/-- Modelled from the spec: the per-transaction `PendingResponse` buffer of
`../lib/pending-response` is not under `src/`; per spec §3 it holds the
body-stage fragment, the completion fragment and the optionally attached
Body Capture Listener (modelled by whether it was attached). -/
structure PendingResponse where
  onBeforeRequestEventDetails : Option WebRequestOnBeforeRequestEventDetails
  onCompletedEventDetails : Option WebRequestOnCompletedEventDetails
  responseBodyListenerAttached : Bool
deriving DecidableEq, Repr

/-- The empty `PendingResponse` created lazily on first reference. -/
def PendingResponse.empty : PendingResponse := ⟨none, none, false⟩

/-- The two lazily-populated per-transaction maps of `HttpInstrument`
(`pendingRequests` and `pendingResponses`), as association lists keyed by
request id. -/
structure InstrumentState where
  pendingRequests : List (Nat × PendingRequest)
  pendingResponses : List (Nat × PendingResponse)
deriving DecidableEq, Repr

/-- The state of a fresh `HttpInstrument`: both maps empty. -/
def InstrumentState.initial : InstrumentState := ⟨[], []⟩

/-- Store a value under a key in an association list, replacing an existing
binding (the JS `this.map[requestId] = v`). -/
def setAssoc {α : Type} : List (Nat × α) → Nat → α → List (Nat × α)
  | [], k, v => [(k, v)]
  | (k0, v0) :: rest, k, v =>
    if k0 == k then (k, v) :: rest else (k0, v0) :: setAssoc rest k v

/-- `getPendingRequest` / `getPendingResponse`: the entry for a request id,
created as empty if absent. -/
def getOrInit {α : Type} (m : List (Nat × α)) (k : Nat) (init : α) : α :=
  (m.lookup k).getD init

/-- Result of the http-post-parser collaborator: optionally recovered
headers and an optionally recovered (structured or raw) body. -/
structure ParsedPostRequest where
  post_headers : Option (List (String × String))
  post_body : Option String
deriving DecidableEq, Repr

/-- A JS exception as observed by the `catch` clause of
`logWithResponseBody`: its `name`, `message` and `stack`. -/
structure JsError where
  name : String
  message : String
  stack : String
deriving DecidableEq, Repr

/-- The asynchronous collaborators `onBeforeSendHeadersHandler` consults,
modelled at their interface boundary (spec §6):
`resolvedWithinTimeout` is the Pending-Request Buffer's wait (not under
`src/`, modelled from spec §4.1: a boolean outcome for a given timeout in
ms); `onBeforeRequestEventDetails` is the awaited body-stage fragment once
resolved; `parsePostRequest` is the http-post-parser collaborator applied
to the awaited fragment, as a function of the encoding type; `urlOrigin`
models `new URL(u).origin`; `tabUrl` models `browser.tabs.get(tabId).url`. -/
structure RequestHandlerEnv where
  resolvedWithinTimeout : Nat → Bool
  onBeforeRequestEventDetails : WebRequestOnBeforeRequestEventDetails
  parsePostRequest : String → ParsedPostRequest
  urlOrigin : String → String
  tabUrl : Nat → String

/-- The exact message logged when the POST-body wait times out. -/
def pendingRequestTimeoutMessage : String :=
  "Pending request timed out waiting for data from both onBeforeRequest and onBeforeSendHeaders events"

/-- The allow-list of POST headers recovered from the upload stream that
are trusted and merged into the header list (`contentHeaders`). -/
def contentHeaders : List String :=
  ["Content-Type", "Content-Disposition", "Content-Length"]

/-- The escaped `[name, value]` pair pushed onto the header list for one
scanned header. -/
def headerPair (h : HttpHeader) : List String :=
  [escapeString (some h.name), escapeString (some h.value)]

/-- One iteration of the request-header scan of
`onBeforeSendHeadersHandler`: push the escaped name/value pair and, when
the name is exactly `"Content-Type"`, record the value as the encoding
type and mark the transaction OCSP when that value contains
`"application/ocsp-request"`.  The accumulator is
(headers, encodingType, isOcsp). -/
def scanRequestHeadersStep (acc : List (List String) × String × Bool)
    (requestHeader : HttpHeader) : List (List String) × String × Bool :=
  let headers := acc.1 ++ [headerPair requestHeader]
  if requestHeader.name == "Content-Type" then
    let encodingType := requestHeader.value
    let isOcsp :=
      acc.2.2 || hasSubstring encodingType "application/ocsp-request"
    (headers, encodingType, isOcsp)
  else
    (headers, acc.2.1, acc.2.2)

/-- The header scan of `onBeforeSendHeadersHandler` over the whole header
list, starting from no headers, empty encoding type and non-OCSP. -/
def scanRequestHeaders (requestHeaders : List HttpHeader) :
    List (List String) × String × Bool :=
  requestHeaders.foldl scanRequestHeadersStep ([], "", false)

/-- The `if (details.requestHeaders)` guard around the header scan. -/
def scannedRequestHeaders
    (details : WebRequestOnBeforeSendHeadersEventDetails) :
    List (List String) × String × Bool :=
  match details.requestHeaders with
  | some requestHeaders => scanRequestHeaders requestHeaders
  | none => ([], "", false)

/-- `HttpInstrument.onBeforeSendHeadersHandler`: assembles the
`http_requests` record from the headers-stage event, handling the POST
body via the Pending-Request Buffer, and emits it to the sink.  Returns
the ordered list of sink effects together with the assembled record. -/
def onBeforeSendHeadersHandler (env : RequestHandlerEnv)
    (details : WebRequestOnBeforeSendHeadersEventDetails) (crawlID : Nat) :
    List Effect × HttpRequest :=
  let url := details.url
  let requestMethod := details.method
  let scanned := scannedRequestHeaders details
  let headers0 := scanned.1
  let encodingType := scanned.2.1
  let isOcsp := scanned.2.2
  let post : List Effect × List (List String) × Option String :=
    if requestMethod == "POST" && !isOcsp then
      if !(env.resolvedWithinTimeout 1000) then
        ([Effect.logError pendingRequestTimeoutMessage], headers0, none)
      else
        match env.onBeforeRequestEventDetails.requestBody with
        | none => ([], headers0, none)
        | some _ =>
          let postObj := env.parsePostRequest encodingType
          let headers1 :=
            match postObj.post_headers with
            | none => headers0
            | some post_headers =>
              headers0 ++
                (post_headers.filter
                  (fun p => contentHeaders.contains p.1)).map
                  (fun p =>
                    [escapeString (some p.1), escapeString (some p.2)])
          ([], headers1, postObj.post_body)
    else
      ([], headers0, none)
  let isXHR := details.type == "xmlhttprequest"
  let isFullPageLoad := details.frameId == 0
  let isFrameLoad := details.type == "sub_frame"
  let triggeringOrigin := details.originUrl.map env.urlOrigin
  let loadingOrigin := details.documentUrl.map env.urlOrigin
  let update : HttpRequest :=
    { crawl_id := crawlID
      request_id := details.requestId
      url := escapeString (some url)
      method := escapeString (some requestMethod)
      time_stamp := dateToISOString details.timeStamp
      headers := post.2.1
      post_body := post.2.2
      is_XHR := boolToInt isXHR
      is_full_page := boolToInt isFullPageLoad
      is_frame_load := boolToInt isFrameLoad
      triggering_origin := escapeString triggeringOrigin
      loading_origin := escapeString loadingOrigin
      loading_href := escapeString details.documentUrl
      resource_type := details.type
      top_level_url := escapeString (some (env.tabUrl details.tabId))
      parent_frame_id := details.parentFrameId
      frame_ancestors := escapeString (some details.frameAncestors) }
  (post.1 ++ [Effect.saveRecord "http_requests" (Record.request update)],
    update)

/-- `HttpInstrument.onBeforeRedirectHandler`: emits the `http_redirects`
record for a redirect-stage event. -/
def onBeforeRedirectHandler
    (details : WebRequestOnBeforeRedirectEventDetails) (crawlID : Nat) :
    List Effect :=
  let httpRedirect : HttpRedirect :=
    { crawl_id := crawlID
      old_request_id := details.requestId
      new_request_id := none
      time_stamp := dateToISOString details.timeStamp }
  [Effect.saveRecord "http_redirects" (Record.redirect httpRedirect)]

/-- The message logged when body capture fails, built from the caught
error exactly as the source concatenates it. -/
def captureErrorMessage (err : JsError) : String :=
  "Unable to retrieve response body." ++
    "Likely caused by a programming error. Error Message:" ++
    err.name ++ err.message ++ "\n" ++ err.stack

/-- `HttpInstrument.logWithResponseBody`: awaits the Body Capture
Listener's bytes and hash.  The whole `try` block is modelled by
`capture : Except JsError (String × String)` — `ok (respBody, contentHash)`
when both accessors succeed, `error err` for a capture failure of any kind
(stream aborted, decode failure, or the listener never attached so the
property access throws).  On success it forwards escaped body and hash to
`saveContent` and emits the record unchanged; on failure it logs a
non-fatal error and emits the record with `content_hash = "<error>"`. -/
def logWithResponseBody (capture : Except JsError (String × String))
    (update : HttpResponse) : List Effect :=
  match capture with
  | Except.ok bodyAndHash =>
    [Effect.saveContent (escapeString (some bodyAndHash.1))
        (escapeString (some bodyAndHash.2)),
      Effect.saveRecord "http_responses" (Record.response update)]
  | Except.error err =>
    let update2 := { update with content_hash := some "<error>" }
    [Effect.logError (captureErrorMessage err),
      Effect.saveRecord "http_responses" (Record.response update2)]

/-- `HttpInstrument.isJS`: true when the resource type is `"script"`. -/
def isJS (resourceType : String) : Bool :=
  resourceType == "script"

/-- The response-header scan of `onCompletedHandler`: accumulates the
escaped name/value pairs in order and extracts the `Location` header value
by a case-insensitive name match.  Returns (headers, location). -/
def scanResponseHeaders (responseHeaders : List HttpHeader) :
    List (List String) × String :=
  responseHeaders.foldl
    (fun acc responseHeader =>
      let headers :=
        acc.1 ++
          [[escapeString (some responseHeader.name),
            escapeString (some responseHeader.value)]]
      if stringToLower responseHeader.name == "location" then
        (headers, responseHeader.value)
      else
        (headers, acc.2))
    ([], "")

/-- The `http_responses` record as assembled by `onCompletedHandler`
before the capture-policy branch; `content_hash` is not assigned here. -/
def responseUpdate (details : WebRequestOnCompletedEventDetails)
    (crawlID : Nat) : HttpResponse :=
  let scanned :=
    match details.responseHeaders with
    | some responseHeaders => scanResponseHeaders responseHeaders
    | none => ([], "")
  { crawl_id := crawlID
    request_id := details.requestId
    is_cached := boolToInt details.fromCache
    url := escapeString (some details.url)
    method := escapeString (some details.method)
    response_status := details.statusCode
    response_status_text := escapeString (some details.statusLine)
    time_stamp := dateToISOString details.timeStamp
    headers := scanned.1
    location := escapeString (some scanned.2)
    content_hash := none }

/-- `HttpInstrument.onCompletedHandler`: assembles the `http_responses`
record and, per the capture policy, either routes through
`logWithResponseBody` or emits the record directly. -/
def onCompletedHandler (capture : Except JsError (String × String))
    (details : WebRequestOnCompletedEventDetails) (crawlID : Nat)
    (saveJavascript saveAllContent : Bool) : List Effect :=
  let update := responseUpdate details crawlID
  if saveAllContent then
    logWithResponseBody capture update
  else if saveJavascript && isJS details.type then
    logWithResponseBody capture update
  else
    [Effect.saveRecord "http_responses" (Record.response update)]

/-- `requestStemsFromExtension`: an event stems from this instrumentation
when its `originUrl` is present (and truthy) and contains
`"moz-extension://"`. -/
def requestStemsFromExtension (originUrl : Option String) : Bool :=
  match originUrl with
  | none => false
  | some u => hasSubstring u "moz-extension://"

/-- The `BlockingResponse` a blocking webRequest listener may return; the
fields that would alter traffic.  `{}` (all absent) changes nothing. -/
structure BlockingResponse where
  cancel : Option Bool
  redirectUrl : Option String
deriving DecidableEq, Repr

/-- `blockingResponseThatDoesNothing`: the empty `BlockingResponse`. -/
def blockingResponseThatDoesNothing : BlockingResponse := ⟨none, none⟩

/-- The `onBeforeRequest` listener: filters extension-origin events, then
resolves the body-stage fragment in both pending buffers and attaches the
Body Capture Listener per the capture policy.  Returns the updated buffer
state and the listener's `BlockingResponse` return value. -/
def onBeforeRequestListener (saveJavascript saveAllContent : Bool)
    (details : WebRequestOnBeforeRequestEventDetails)
    (s : InstrumentState) : InstrumentState × BlockingResponse :=
  if requestStemsFromExtension details.originUrl then
    (s, blockingResponseThatDoesNothing)
  else
    let pendingRequest :=
      getOrInit s.pendingRequests details.requestId PendingRequest.empty
    let pendingRequest :=
      { pendingRequest with onBeforeRequestEventDetails := some details }
    let s1 :=
      { s with
        pendingRequests :=
          setAssoc s.pendingRequests details.requestId pendingRequest }
    let pendingResponse :=
      getOrInit s1.pendingResponses details.requestId PendingResponse.empty
    let pendingResponse :=
      { pendingResponse with onBeforeRequestEventDetails := some details }
    let pendingResponse :=
      if saveAllContent then
        { pendingResponse with responseBodyListenerAttached := true }
      else if saveJavascript && isJS details.type then
        { pendingResponse with responseBodyListenerAttached := true }
      else
        pendingResponse
    let s2 :=
      { s1 with
        pendingResponses :=
          setAssoc s1.pendingResponses details.requestId pendingResponse }
    (s2, blockingResponseThatDoesNothing)

/-- The `onBeforeSendHeaders` listener: filters extension-origin events,
resolves the headers-stage fragment in the Pending-Request Buffer and
invokes the Request Assembler.  Returns the updated buffer state and the
sink effects produced. -/
def onBeforeSendHeadersListener (env : RequestHandlerEnv) (crawlID : Nat)
    (details : WebRequestOnBeforeSendHeadersEventDetails)
    (s : InstrumentState) : InstrumentState × List Effect :=
  if requestStemsFromExtension details.originUrl then
    (s, [])
  else
    let pendingRequest :=
      getOrInit s.pendingRequests details.requestId PendingRequest.empty
    let pendingRequest :=
      { pendingRequest with onBeforeSendHeadersEventDetails := some details }
    let s1 :=
      { s with
        pendingRequests :=
          setAssoc s.pendingRequests details.requestId pendingRequest }
    (s1, (onBeforeSendHeadersHandler env details crawlID).1)

/-- The `onBeforeRedirect` listener: filters extension-origin events and
invokes the Redirect Recorder directly; the pending buffers are never
touched. -/
def onBeforeRedirectListener (crawlID : Nat)
    (details : WebRequestOnBeforeRedirectEventDetails)
    (s : InstrumentState) : InstrumentState × List Effect :=
  if requestStemsFromExtension details.originUrl then
    (s, [])
  else
    (s, onBeforeRedirectHandler details crawlID)

/-- The `onCompleted` listener: filters extension-origin events, resolves
the completion fragment in the Pending-Response Buffer and invokes the
Response Assembler. -/
def onCompletedListener (capture : Except JsError (String × String))
    (crawlID : Nat) (saveJavascript saveAllContent : Bool)
    (details : WebRequestOnCompletedEventDetails)
    (s : InstrumentState) : InstrumentState × List Effect :=
  if requestStemsFromExtension details.originUrl then
    (s, [])
  else
    let pendingResponse :=
      getOrInit s.pendingResponses details.requestId PendingResponse.empty
    let pendingResponse :=
      { pendingResponse with onCompletedEventDetails := some details }
    let s1 :=
      { s with
        pendingResponses :=
          setAssoc s.pendingResponses details.requestId pendingResponse }
    (s1,
      onCompletedHandler capture details crawlID saveJavascript
        saveAllContent)

/-- Which of the four webRequest channels currently hold an active
subscription made by this instrument. -/
structure ActiveSubscriptions where
  onBeforeRequest : Bool
  onBeforeSendHeaders : Bool
  onBeforeRedirect : Bool
  onCompleted : Bool
deriving DecidableEq, Repr

/-- Listener-lifecycle state of an `HttpInstrument` instance: the four
nullable listener fields (whether each has been assigned by `run`) and
the channels' active subscriptions. -/
structure GatewayState where
  onBeforeRequestListenerSet : Bool
  onBeforeSendHeadersListenerSet : Bool
  onBeforeRedirectListenerSet : Bool
  onCompletedListenerSet : Bool
  subscriptions : ActiveSubscriptions
deriving DecidableEq, Repr

/-- A freshly constructed instrument: no listener fields assigned, no
subscriptions. -/
def GatewayState.initial : GatewayState :=
  ⟨false, false, false, false, ⟨false, false, false, false⟩⟩

/-- `HttpInstrument.run` as it affects listener lifecycle: assigns all four
listener fields and subscribes each to its channel. -/
def GatewayState.runInstrument (_s : GatewayState) : GatewayState :=
  ⟨true, true, true, true, ⟨true, true, true, true⟩⟩

/-- `HttpInstrument.cleanup`: for each channel, if that listener field was
assigned, remove the listener from the channel (`removeListener` is a
no-op on the browser side when the listener is not subscribed, so it
simply clears the subscription); the listener fields themselves are left
as they are. -/
def GatewayState.cleanup (s : GatewayState) : GatewayState :=
  let s1 :=
    if s.onBeforeRequestListenerSet then
      { s with
        subscriptions := { s.subscriptions with onBeforeRequest := false } }
    else s
  let s2 :=
    if s1.onBeforeSendHeadersListenerSet then
      { s1 with
        subscriptions :=
          { s1.subscriptions with onBeforeSendHeaders := false } }
    else s1
  let s3 :=
    if s2.onBeforeRedirectListenerSet then
      { s2 with
        subscriptions := { s2.subscriptions with onBeforeRedirect := false } }
    else s2
  if s3.onCompletedListenerSet then
    { s3 with subscriptions := { s3.subscriptions with onCompleted := false } }
  else s3

/-!
## Helper lemmas
-/

/-- Storing a value under a key in an association list makes it the
binding that `lookup` finds. -/
theorem lookup_setAssoc {α : Type} (m : List (Nat × α)) (k : Nat) (v : α) :
    (setAssoc m k v).lookup k = some v := by
  induction m with
  | nil => simp [setAssoc, List.lookup]
  | cons hd t ih =>
    obtain ⟨k0, v0⟩ := hd
    by_cases h : k0 = k
    · subst h
      simp [setAssoc, List.lookup]
    · have hb : (k0 == k) = false := beq_eq_false_iff_ne.mpr h
      have hb2 : (k == k0) = false := beq_eq_false_iff_ne.mpr (Ne.symm h)
      simp [setAssoc, hb, List.lookup, hb2, ih]

/-- Whether one scanned header classifies the transaction as OCSP: its
name is exactly `"Content-Type"` (case-sensitively) and its value
contains `"application/ocsp-request"`. -/
def isOcspHeader (h : HttpHeader) : Bool :=
  h.name == "Content-Type" &&
    hasSubstring h.value "application/ocsp-request"

/-- Closed form of the request-header scan loop from an arbitrary
accumulator: the headers are appended in order, the encoding type is the
value of the last header named exactly `"Content-Type"`, and the OCSP
flag is an OR over the scanned headers. -/
theorem scanRequestHeaders_foldl (hs : List HttpHeader)
    (H : List (List String)) (e : String) (o : Bool) :
    hs.foldl scanRequestHeadersStep (H, e, o) =
      (H ++ hs.map headerPair,
        (hs.filterMap fun h =>
          if h.name == "Content-Type" then some h.value
          else none).getLastD e,
        o || hs.any isOcspHeader) := by
  induction hs generalizing H e o with
  | nil => simp
  | cons h t ih =>
    cases hc : h.name == "Content-Type" with
    | false =>
      have hf :
          (if (h.name == "Content-Type") = true then some h.value
            else none) = (none : Option String) := by
        simp [hc]
      have ho : isOcspHeader h = false := by
        simp [isOcspHeader, hc]
      rw [List.foldl_cons,
        show scanRequestHeadersStep (H, e, o) h = (H ++ [headerPair h], e, o) by
          simp [scanRequestHeadersStep, hc],
        ih, List.map_cons, List.any_cons, ho, List.filterMap_cons, hf]
      simp only [List.append_assoc, List.singleton_append, Bool.false_or]
    | true =>
      have hf :
          (if (h.name == "Content-Type") = true then some h.value
            else none) = some h.value := by
        simp [hc]
      have ho :
          isOcspHeader h =
            hasSubstring h.value "application/ocsp-request" := by
        simp [isOcspHeader, hc]
      rw [List.foldl_cons,
        show scanRequestHeadersStep (H, e, o) h =
            (H ++ [headerPair h], h.value,
              o || hasSubstring h.value "application/ocsp-request") by
          simp [scanRequestHeadersStep, hc],
        ih, List.map_cons, List.any_cons, ho, List.filterMap_cons, hf,
        List.getLastD_cons]
      simp only [List.append_assoc, List.singleton_append, Bool.or_assoc]

/-- Closed form of the request-header scan. -/
theorem scanRequestHeaders_eq (hs : List HttpHeader) :
    scanRequestHeaders hs =
      (hs.map headerPair,
        (hs.filterMap fun h =>
          if h.name == "Content-Type" then some h.value
          else none).getLastD "",
        hs.any isOcspHeader) := by
  simpa [scanRequestHeaders] using scanRequestHeaders_foldl hs [] "" false

/-!
## Claim theorems
-/

/-- C7: `cleanup` is idempotent and safe before `run`: it attempts removal
only for channels whose listener field was assigned (visible in its
definition), calling it on a fresh instrument is a no-op, it is a total
function (never throws), and calling it twice in a row — in particular
after `run` — changes nothing further and leaves no active
subscriptions. -/
theorem c7_cleanup_idempotent_and_safe :
    GatewayState.cleanup GatewayState.initial = GatewayState.initial ∧
      (∀ s : GatewayState, s.cleanup.cleanup = s.cleanup) ∧
      (∀ s : GatewayState,
        s.runInstrument.cleanup.cleanup.subscriptions =
          ⟨false, false, false, false⟩) := by
  refine ⟨rfl, ?_, ?_⟩
  · intro s
    obtain ⟨a, b, c, d, subs⟩ := s
    cases a <;> cases b <;> cases c <;> cases d <;> rfl
  · intro s
    rfl

/-- C9: for every redirect-stage event (not filtered as
extension-origin), the listener leaves the pending buffers untouched and
emits exactly one `http_redirects` record whose `old_request_id` is the
event's request id, whose `new_request_id` is null, and whose
`time_stamp` is the ISO-8601 rendering of the event's timestamp. -/
theorem c9_redirect_record (crawlID : Nat)
    (details : WebRequestOnBeforeRedirectEventDetails)
    (s : InstrumentState)
    (hext : requestStemsFromExtension details.originUrl = false) :
    onBeforeRedirectListener crawlID details s =
      (s,
        [Effect.saveRecord "http_redirects"
          (Record.redirect
            { crawl_id := crawlID
              old_request_id := details.requestId
              new_request_id := none
              time_stamp := dateToISOString details.timeStamp })]) := by
  simp [onBeforeRedirectListener, hext, onBeforeRedirectHandler]

/-- Concrete instantiation of `c9_redirect_record`: a redirect event with
old id 42 at the epoch yields exactly one record with
`old_request_id = 42`, `new_request_id = null` and the ISO-8601
timestamp. -/
theorem c9_redirect_record_witness :
    onBeforeRedirectListener 1
        { requestId := 42, url := "https://a.example/x", originUrl := none,
          timeStamp := 0 } InstrumentState.initial =
      (InstrumentState.initial,
        [Effect.saveRecord "http_redirects"
          (Record.redirect
            { crawl_id := 1, old_request_id := 42, new_request_id := none,
              time_stamp := "1970-01-01T00:00:00.000Z" })]) :=
  (c9_redirect_record 1
      { requestId := 42, url := "https://a.example/x", originUrl := none,
        timeStamp := 0 } InstrumentState.initial rfl).trans (by decide)

/-- C10: the `onBeforeRequest` listener returns the empty
`BlockingResponse` on every input — filtered or not, and whatever the
capture policy — so the instrument never cancels, redirects or modifies
any request. -/
theorem c10_never_blocks (saveJavascript saveAllContent : Bool)
    (details : WebRequestOnBeforeRequestEventDetails)
    (s : InstrumentState) :
    (onBeforeRequestListener saveJavascript saveAllContent details s).2 =
        blockingResponseThatDoesNothing ∧
      blockingResponseThatDoesNothing.cancel = none ∧
      blockingResponseThatDoesNothing.redirectUrl = none := by
  refine ⟨?_, rfl, rfl⟩
  unfold onBeforeRequestListener
  split
  · rfl
  · rfl

/-- C8: any event on any of the four channels whose `originUrl` contains
`"moz-extension://"` is discarded immediately: the pending buffers are
left exactly as they were (no entry created or resolved, no body-capture
listener attached) and no sink effect of any kind is produced. -/
theorem c8_extension_origin_discarded
    (d1 : WebRequestOnBeforeRequestEventDetails)
    (d2 : WebRequestOnBeforeSendHeadersEventDetails)
    (d3 : WebRequestOnBeforeRedirectEventDetails)
    (d4 : WebRequestOnCompletedEventDetails)
    (env : RequestHandlerEnv) (capture : Except JsError (String × String))
    (crawlID : Nat) (saveJavascript saveAllContent : Bool)
    (s : InstrumentState) (u1 u2 u3 u4 : String)
    (h1 : d1.originUrl = some u1)
    (hu1 : hasSubstring u1 "moz-extension://" = true)
    (h2 : d2.originUrl = some u2)
    (hu2 : hasSubstring u2 "moz-extension://" = true)
    (h3 : d3.originUrl = some u3)
    (hu3 : hasSubstring u3 "moz-extension://" = true)
    (h4 : d4.originUrl = some u4)
    (hu4 : hasSubstring u4 "moz-extension://" = true) :
    onBeforeRequestListener saveJavascript saveAllContent d1 s =
        (s, blockingResponseThatDoesNothing) ∧
      onBeforeSendHeadersListener env crawlID d2 s = (s, []) ∧
      onBeforeRedirectListener crawlID d3 s = (s, []) ∧
      onCompletedListener capture crawlID saveJavascript saveAllContent d4 s =
        (s, []) := by
  have e1 : requestStemsFromExtension d1.originUrl = true := by
    rw [h1]; simpa [requestStemsFromExtension] using hu1
  have e2 : requestStemsFromExtension d2.originUrl = true := by
    rw [h2]; simpa [requestStemsFromExtension] using hu2
  have e3 : requestStemsFromExtension d3.originUrl = true := by
    rw [h3]; simpa [requestStemsFromExtension] using hu3
  have e4 : requestStemsFromExtension d4.originUrl = true := by
    rw [h4]; simpa [requestStemsFromExtension] using hu4
  exact ⟨by simp [onBeforeRequestListener, e1],
    by simp [onBeforeSendHeadersListener, e2],
    by simp [onBeforeRedirectListener, e3],
    by simp [onCompletedListener, e4]⟩

/-- An origin URL generated by the instrumentation extension itself. -/
def extOriginUrl : String := "moz-extension://4a5b6c7d/content.js"

/-- A body-stage event originating from the extension. -/
def extD1 : WebRequestOnBeforeRequestEventDetails :=
  { requestId := 9, url := "https://a.example/x",
    originUrl := some extOriginUrl, type := "script", requestBody := none }

/-- A headers-stage event originating from the extension. -/
def extD2 : WebRequestOnBeforeSendHeadersEventDetails :=
  { requestId := 9, url := "https://a.example/x", method := "GET",
    originUrl := some extOriginUrl, documentUrl := none,
    requestHeaders := none, timeStamp := 0, type := "script", frameId := 0,
    tabId := 3, parentFrameId := -1, frameAncestors := "[]" }

/-- A redirect-stage event originating from the extension. -/
def extD3 : WebRequestOnBeforeRedirectEventDetails :=
  { requestId := 9, url := "https://a.example/x",
    originUrl := some extOriginUrl, timeStamp := 0 }

/-- A completion-stage event originating from the extension. -/
def extD4 : WebRequestOnCompletedEventDetails :=
  { requestId := 9, url := "https://a.example/x", method := "GET",
    originUrl := some extOriginUrl, fromCache := false, statusCode := 200,
    statusLine := "HTTP/1.1 200 OK", timeStamp := 0,
    responseHeaders := none, type := "script" }

/-- A collaborator environment with inert collaborators, for concrete
instantiations. -/
def inertEnv : RequestHandlerEnv :=
  { resolvedWithinTimeout := fun _ => true
    onBeforeRequestEventDetails := extD1
    parsePostRequest := fun _ => ⟨none, none⟩
    urlOrigin := fun u => u
    tabUrl := fun _ => "https://top.example/" }

/-- Concrete instantiation of `c8_extension_origin_discarded`: an
extension-origin event on each channel leaves the fresh state untouched
and produces no effect. -/
theorem c8_extension_origin_discarded_witness :
    onBeforeRequestListener false false extD1 InstrumentState.initial =
        (InstrumentState.initial, blockingResponseThatDoesNothing) ∧
      onBeforeSendHeadersListener inertEnv 1 extD2 InstrumentState.initial =
        (InstrumentState.initial, []) ∧
      onBeforeRedirectListener 1 extD3 InstrumentState.initial =
        (InstrumentState.initial, []) ∧
      onCompletedListener (Except.ok ("", "")) 1 false false extD4
          InstrumentState.initial =
        (InstrumentState.initial, []) :=
  c8_extension_origin_discarded extD1 extD2 extD3 extD4 inertEnv
    (Except.ok ("", "")) 1 false false InstrumentState.initial
    extOriginUrl extOriginUrl extOriginUrl extOriginUrl
    rfl (by decide) rfl (by decide) rfl (by decide) rfl (by decide)

/-- C2: on a POST headers-stage event that is not OCSP, the assembler
consults the Pending-Request Buffer's wait with the fixed 1000 ms
timeout; when that wait reports failure, exactly one `logError` is
issued (with the timeout message) and the `http_requests` record is
still emitted, with no `post_body`. -/
theorem c2_post_timeout (env : RequestHandlerEnv) (crawlID : Nat)
    (details : WebRequestOnBeforeSendHeadersEventDetails)
    (hm : details.method = "POST")
    (hocsp : (scannedRequestHeaders details).2.2 = false)
    (ht : env.resolvedWithinTimeout 1000 = false) :
    (onBeforeSendHeadersHandler env details crawlID).1 =
        [Effect.logError pendingRequestTimeoutMessage,
          Effect.saveRecord "http_requests"
            (Record.request (onBeforeSendHeadersHandler env details crawlID).2)] ∧
      ((onBeforeSendHeadersHandler env details crawlID).1.filter
          Effect.isLogError).length = 1 ∧
      (onBeforeSendHeadersHandler env details crawlID).2.post_body = none := by
  refine ⟨?_, ?_, ?_⟩
  · simp [onBeforeSendHeadersHandler, hm, hocsp, ht]
  · simp [onBeforeSendHeadersHandler, hm, hocsp, ht, Effect.isLogError]
  · simp [onBeforeSendHeadersHandler, hm, hocsp, ht]

/-- A collaborator environment whose Pending-Request Buffer wait always
times out. -/
def timeoutEnv : RequestHandlerEnv :=
  { resolvedWithinTimeout := fun _ => false
    onBeforeRequestEventDetails := extD1
    parsePostRequest := fun _ => ⟨none, none⟩
    urlOrigin := fun u => u
    tabUrl := fun _ => "https://top.example/" }

/-- A POST headers-stage event (not OCSP). -/
def postDetails : WebRequestOnBeforeSendHeadersEventDetails :=
  { requestId := 5, url := "https://a.example/api", method := "POST",
    originUrl := none, documentUrl := none,
    requestHeaders :=
      some [⟨"Content-Type", "application/x-www-form-urlencoded"⟩],
    timeStamp := 0, type := "xmlhttprequest", frameId := 0, tabId := 3,
    parentFrameId := -1, frameAncestors := "[]" }

/-- Concrete instantiation of `c2_post_timeout`: a POST whose body
fragment never arrives logs exactly one error and still emits a record
with no `post_body`. -/
theorem c2_post_timeout_witness :
    (onBeforeSendHeadersHandler timeoutEnv postDetails 1).1 =
        [Effect.logError pendingRequestTimeoutMessage,
          Effect.saveRecord "http_requests"
            (Record.request (onBeforeSendHeadersHandler timeoutEnv postDetails 1).2)] ∧
      ((onBeforeSendHeadersHandler timeoutEnv postDetails 1).1.filter
          Effect.isLogError).length = 1 ∧
      (onBeforeSendHeadersHandler timeoutEnv postDetails 1).2.post_body = none :=
  c2_post_timeout timeoutEnv 1 postDetails rfl (by decide) rfl

/-- C3: when the capture policy requires body capture and capture fails
for any reason, a non-fatal error is logged and the `http_responses`
record is still emitted exactly once, with its `content_hash` equal to
the sentinel `"<error>"`. -/
theorem c3_capture_failure_sentinel
    (capture : Except JsError (String × String)) (err : JsError)
    (details : WebRequestOnCompletedEventDetails) (crawlID : Nat)
    (saveJavascript saveAllContent : Bool)
    (hpol : saveAllContent = true ∨
      (saveJavascript = true ∧ details.type = "script"))
    (hcap : capture = Except.error err) :
    onCompletedHandler capture details crawlID saveJavascript saveAllContent =
        [Effect.logError (captureErrorMessage err),
          Effect.saveRecord "http_responses"
            (Record.response
              { responseUpdate details crawlID with
                  content_hash := some "<error>" })] ∧
      ((onCompletedHandler capture details crawlID saveJavascript
            saveAllContent).filter
          (Effect.isSaveRecordTo "http_responses")).length = 1 := by
  subst hcap
  rcases hpol with h | ⟨hj, hs⟩
  · subst h
    exact ⟨by simp [onCompletedHandler, logWithResponseBody],
      by simp [onCompletedHandler, logWithResponseBody,
        Effect.isSaveRecordTo, Effect.isLogError]⟩
  · subst hj
    cases hA : saveAllContent with
    | true =>
      exact ⟨by simp [onCompletedHandler, logWithResponseBody],
        by simp [onCompletedHandler, logWithResponseBody,
          Effect.isSaveRecordTo, Effect.isLogError]⟩
    | false =>
      exact ⟨by simp [onCompletedHandler, logWithResponseBody, isJS, hs],
        by simp [onCompletedHandler, logWithResponseBody, isJS, hs,
          Effect.isSaveRecordTo, Effect.isLogError]⟩

/-- A completion-stage event for a script resource. -/
def scriptCompletedDetails : WebRequestOnCompletedEventDetails :=
  { requestId := 7, url := "https://a.example/lib.js", method := "GET",
    originUrl := none, fromCache := false, statusCode := 200,
    statusLine := "HTTP/1.1 200 OK", timeStamp := 0,
    responseHeaders := some [⟨"Content-Type", "text/javascript"⟩],
    type := "script" }

/-- The error observed when the body listener was never attached. -/
def listenerMissingError : JsError :=
  { name := "TypeError"
    message := "responseBodyListener is undefined"
    stack := "" }

/-- Concrete instantiation of `c3_capture_failure_sentinel` in
capture-scripts mode with a failing capture. -/
theorem c3_capture_failure_sentinel_witness :
    onCompletedHandler (Except.error listenerMissingError)
        scriptCompletedDetails 1 true false =
        [Effect.logError (captureErrorMessage listenerMissingError),
          Effect.saveRecord "http_responses"
            (Record.response
              { responseUpdate scriptCompletedDetails 1 with
                  content_hash := some "<error>" })] ∧
      ((onCompletedHandler (Except.error listenerMissingError)
            scriptCompletedDetails 1 true false).filter
          (Effect.isSaveRecordTo "http_responses")).length = 1 :=
  c3_capture_failure_sentinel (Except.error listenerMissingError)
    listenerMissingError scriptCompletedDetails 1 true false
    (Or.inr ⟨rfl, rfl⟩) rfl

/-- C1 (amended): when the capture policy requires body capture and both
body and hash retrieval succeed, the escaped body and escaped hash are
forwarded to the sink's `saveContent` and the `http_responses` record is
emitted — but the record's `content_hash` field is left unset (`none`):
the emitted record does not carry the hash passed to `saveContent`. -/
theorem c1_success_content_saved_record_without_hash
    (capture : Except JsError (String × String))
    (respBody contentHash : String)
    (details : WebRequestOnCompletedEventDetails) (crawlID : Nat)
    (saveJavascript saveAllContent : Bool)
    (hpol : saveAllContent = true ∨
      (saveJavascript = true ∧ details.type = "script"))
    (hcap : capture = Except.ok (respBody, contentHash)) :
    onCompletedHandler capture details crawlID saveJavascript saveAllContent =
        [Effect.saveContent (escapeString (some respBody))
            (escapeString (some contentHash)),
          Effect.saveRecord "http_responses"
            (Record.response (responseUpdate details crawlID))] ∧
      (responseUpdate details crawlID).content_hash = none := by
  subst hcap
  rcases hpol with h | ⟨hj, hs⟩
  · subst h
    exact ⟨by simp [onCompletedHandler, logWithResponseBody],
      by simp [responseUpdate]⟩
  · subst hj
    cases hA : saveAllContent with
    | true =>
      exact ⟨by simp [onCompletedHandler, logWithResponseBody],
        by simp [responseUpdate]⟩
    | false =>
      exact ⟨by simp [onCompletedHandler, logWithResponseBody, isJS, hs],
        by simp [responseUpdate]⟩

/-- A completion-stage event used to evaluate the successful-capture
path concretely. -/
def c1Details : WebRequestOnCompletedEventDetails :=
  { requestId := 11, url := "https://a.example/big.js", method := "GET",
    originUrl := none, fromCache := true, statusCode := 200,
    statusLine := "HTTP/1.1 200 OK", timeStamp := 0,
    responseHeaders := some [⟨"Content-Type", "text/javascript"⟩],
    type := "script" }

/-- C1 counterexample: at a concrete successful capture (body `"hello"`,
hash `"h123"`, capture-all mode) the hash is forwarded to `saveContent`
but the emitted `http_responses` record's `content_hash` field is `none`,
not the hash passed to `saveContent` — refuting the claim that the
emitted record references that hash. -/
theorem c1_counterexample :
    onCompletedHandler (Except.ok ("hello", "h123")) c1Details 1 false true =
        [Effect.saveContent "hello" "h123",
          Effect.saveRecord "http_responses"
            (Record.response (responseUpdate c1Details 1))] ∧
      (responseUpdate c1Details 1).content_hash = none ∧
      (responseUpdate c1Details 1).content_hash ≠ some "h123" :=
  ⟨by decide, by decide, by decide⟩

/-- Concrete instantiation of
`c1_success_content_saved_record_without_hash` at the same input. -/
theorem c1_success_witness :
    onCompletedHandler (Except.ok ("hello", "h123")) c1Details 1 false true =
        [Effect.saveContent "hello" "h123",
          Effect.saveRecord "http_responses"
            (Record.response (responseUpdate c1Details 1))] ∧
      (responseUpdate c1Details 1).content_hash = none :=
  c1_success_content_saved_record_without_hash
    (Except.ok ("hello", "h123")) "hello" "h123" c1Details 1 false true
    (Or.inl rfl) rfl

/-- C4: on a body-stage event (not extension-origin, and whose
transaction had no listener attached yet), the Body Capture Listener is
attached if and only if the capture policy requires it — always in
capture-all mode, exactly for `"script"` resources in capture-scripts
mode — and when neither mode is on, the completion handler emits the
response record directly, never consulting a capture listener. -/
theorem c4_capture_policy_attachment (saveJavascript saveAllContent : Bool)
    (details : WebRequestOnBeforeRequestEventDetails) (s : InstrumentState)
    (hext : requestStemsFromExtension details.originUrl = false)
    (hprev :
      (getOrInit s.pendingResponses details.requestId
          PendingResponse.empty).responseBodyListenerAttached = false) :
    (∃ pr : PendingResponse,
      ((onBeforeRequestListener saveJavascript saveAllContent details
            s).1.pendingResponses.lookup details.requestId) = some pr ∧
        pr.responseBodyListenerAttached =
          (saveAllContent || (saveJavascript && isJS details.type))) ∧
      (saveAllContent = false → saveJavascript = false →
        ∀ (capture : Except JsError (String × String))
          (cDetails : WebRequestOnCompletedEventDetails) (cID : Nat),
          onCompletedHandler capture cDetails cID saveJavascript
              saveAllContent =
            [Effect.saveRecord "http_responses"
              (Record.response (responseUpdate cDetails cID))]) := by
  constructor
  · have hstate :
        (onBeforeRequestListener saveJavascript saveAllContent details
            s).1.pendingResponses =
          setAssoc s.pendingResponses details.requestId
            (let p0 :=
              getOrInit s.pendingResponses details.requestId
                PendingResponse.empty
            let p1 := { p0 with onBeforeRequestEventDetails := some details }
            if saveAllContent then
              { p1 with responseBodyListenerAttached := true }
            else if saveJavascript && isJS details.type then
              { p1 with responseBodyListenerAttached := true }
            else p1) := by
      simp [onBeforeRequestListener, hext]
    refine ⟨_, by rw [hstate]; exact lookup_setAssoc _ _ _, ?_⟩
    cases saveAllContent with
    | true => simp
    | false =>
      cases hjs : saveJavascript && isJS details.type with
      | true => simp [hjs]
      | false => simp [hjs, hprev]
  · intro hA hJ capture cDetails cID
    subst hA
    subst hJ
    simp [onCompletedHandler]

/-- A body-stage event for a stylesheet resource from the open web. -/
def styleRequestDetails : WebRequestOnBeforeRequestEventDetails :=
  { requestId := 21, url := "https://a.example/app.css",
    originUrl := some "https://a.example/", type := "stylesheet",
    requestBody := none }

/-- Concrete instantiation of `c4_capture_policy_attachment` with both
capture modes off: no listener is attached and completion emits the bare
record. -/
theorem c4_capture_policy_attachment_witness :
    (∃ pr : PendingResponse,
      ((onBeforeRequestListener false false styleRequestDetails
            InstrumentState.initial).1.pendingResponses.lookup
          styleRequestDetails.requestId) = some pr ∧
        pr.responseBodyListenerAttached =
          (false || (false && isJS styleRequestDetails.type))) ∧
      (false = false → false = false →
        ∀ (capture : Except JsError (String × String))
          (cDetails : WebRequestOnCompletedEventDetails) (cID : Nat),
          onCompletedHandler capture cDetails cID false false =
            [Effect.saveRecord "http_responses"
              (Record.response (responseUpdate cDetails cID))]) :=
  c4_capture_policy_attachment false false styleRequestDetails
    InstrumentState.initial rfl rfl

/-- C5: the request-header scan compares names case-sensitively against
the exact string `"Content-Type"` — the OCSP flag is an `any` over
`isOcspHeader` (whose name test is `==` with `"Content-Type"`), and the
encoding type is the value of the last header with that exact name — and
a transaction so classified as OCSP is excluded from all POST body
processing even when the method is POST: for every environment (in
particular one whose buffer wait would fail) the handler produces no
`logError`, merges no recovered headers, and emits a record with no
`post_body`. -/
theorem c5_ocsp_case_sensitive_exclusion (env : RequestHandlerEnv)
    (crawlID : Nat) (details : WebRequestOnBeforeSendHeadersEventDetails)
    (hs : List HttpHeader)
    (hh : details.requestHeaders = some hs)
    (hany : hs.any isOcspHeader = true) :
    (scannedRequestHeaders details).2.2 = hs.any isOcspHeader ∧
      (scannedRequestHeaders details).2.1 =
        (hs.filterMap fun h =>
          if h.name == "Content-Type" then some h.value
          else none).getLastD "" ∧
      (onBeforeSendHeadersHandler env details crawlID).1 =
        [Effect.saveRecord "http_requests"
          (Record.request (onBeforeSendHeadersHandler env details crawlID).2)] ∧
      (onBeforeSendHeadersHandler env details crawlID).2.post_body = none ∧
      (onBeforeSendHeadersHandler env details crawlID).2.headers =
        hs.map headerPair := by
  have hscan : scannedRequestHeaders details =
      (hs.map headerPair,
        (hs.filterMap fun h =>
          if h.name == "Content-Type" then some h.value
          else none).getLastD "",
        true) := by
    simp only [scannedRequestHeaders, hh]
    rw [scanRequestHeaders_eq, hany]
  refine ⟨?_, ?_, ?_, ?_, ?_⟩
  · rw [hscan, hany]
  · rw [hscan]
  · simp [onBeforeSendHeadersHandler, hscan]
  · simp [onBeforeSendHeadersHandler, hscan]
  · simp [onBeforeSendHeadersHandler, hscan]

/-- A POST headers-stage event carrying an OCSP content type. -/
def ocspDetails : WebRequestOnBeforeSendHeadersEventDetails :=
  { requestId := 6, url := "https://ocsp.example/", method := "POST",
    originUrl := none, documentUrl := none,
    requestHeaders := some [⟨"Content-Type", "application/ocsp-request"⟩],
    timeStamp := 0, type := "other", frameId := 0, tabId := 3,
    parentFrameId := -1, frameAncestors := "[]" }

/-- Concrete instantiation of `c5_ocsp_case_sensitive_exclusion` on an
OCSP POST, against the environment whose buffer wait would time out —
still no error and no `post_body`. -/
theorem c5_ocsp_case_sensitive_exclusion_witness :
    (scannedRequestHeaders ocspDetails).2.2 =
        [HttpHeader.mk "Content-Type" "application/ocsp-request"].any
          isOcspHeader ∧
      (scannedRequestHeaders ocspDetails).2.1 =
        ([HttpHeader.mk "Content-Type"
            "application/ocsp-request"].filterMap fun h =>
          if h.name == "Content-Type" then some h.value
          else none).getLastD "" ∧
      (onBeforeSendHeadersHandler timeoutEnv ocspDetails 1).1 =
        [Effect.saveRecord "http_requests"
          (Record.request (onBeforeSendHeadersHandler timeoutEnv ocspDetails 1).2)] ∧
      (onBeforeSendHeadersHandler timeoutEnv ocspDetails 1).2.post_body =
        none ∧
      (onBeforeSendHeadersHandler timeoutEnv ocspDetails 1).2.headers =
        [HttpHeader.mk "Content-Type" "application/ocsp-request"].map
          headerPair :=
  c5_ocsp_case_sensitive_exclusion timeoutEnv 1 ocspDetails
    [HttpHeader.mk "Content-Type" "application/ocsp-request"] rfl (by decide)

/-- C6: when the POST parser recovers `post_headers`, the request
record's header list is the scanned list plus a suffix of merged entries,
and that suffix contains exactly the recovered headers whose name is in
the allow-list `Content-Type` / `Content-Disposition` / `Content-Length`:
every allow-listed recovered header is appended, and no recovered header
outside the allow-list ever appears among the appended entries. -/
theorem c6_post_headers_allowlist (env : RequestHandlerEnv) (crawlID : Nat)
    (details : WebRequestOnBeforeSendHeadersEventDetails)
    (body : String) (phs : List (String × String)) (pb : Option String)
    (hm : details.method = "POST")
    (hocsp : (scannedRequestHeaders details).2.2 = false)
    (hres : env.resolvedWithinTimeout 1000 = true)
    (hbody : env.onBeforeRequestEventDetails.requestBody = some body)
    (hparse :
      env.parsePostRequest (scannedRequestHeaders details).2.1 =
        ⟨some phs, pb⟩) :
    ∃ extra : List (List String),
      (onBeforeSendHeadersHandler env details crawlID).2.headers =
          (scannedRequestHeaders details).1 ++ extra ∧
        (∀ q ∈ extra, ∃ p ∈ phs, p.1 ∈ contentHeaders ∧
          q = [escapeString (some p.1), escapeString (some p.2)]) ∧
        (∀ p ∈ phs, p.1 ∈ contentHeaders →
          [escapeString (some p.1), escapeString (some p.2)] ∈ extra) ∧
        (∀ p ∈ phs, p.1 ∉ contentHeaders →
          [escapeString (some p.1), escapeString (some p.2)] ∉ extra) := by
  refine ⟨(phs.filter fun p => contentHeaders.contains p.1).map
      (fun p => [escapeString (some p.1), escapeString (some p.2)]),
    ?_, ?_, ?_, ?_⟩
  · simp [onBeforeSendHeadersHandler, hm, hocsp, hres, hbody, hparse]
  · intro q hq
    obtain ⟨p, hpf, rfl⟩ := List.mem_map.mp hq
    obtain ⟨hpmem, hpc⟩ := List.mem_filter.mp hpf
    exact ⟨p, hpmem, by simpa using hpc, rfl⟩
  · intro p hp hcmem
    exact List.mem_map.mpr
      ⟨p, List.mem_filter.mpr ⟨hp, by simpa using hcmem⟩, rfl⟩
  · intro p hp hcnot hmem
    obtain ⟨q, hqf, heq⟩ := List.mem_map.mp hmem
    obtain ⟨hqmem, hqc⟩ := List.mem_filter.mp hqf
    have hnames : q.1 = p.1 := by
      have hheads := congrArg (fun l => l.head?) heq
      simpa [escapeString] using hheads
    have hqin : q.1 ∈ contentHeaders := by simpa using hqc
    rw [hnames] at hqin
    exact hcnot hqin

/-- A collaborator environment whose buffer wait succeeds and whose POST
parser recovers one allow-listed header, one non-allow-listed entry and a
structured body. -/
def postEnv : RequestHandlerEnv :=
  { resolvedWithinTimeout := fun _ => true
    onBeforeRequestEventDetails :=
      { requestId := 5, url := "https://a.example/api", originUrl := none,
        type := "xmlhttprequest", requestBody := some "a=b&c=d" }
    parsePostRequest := fun _ =>
      ⟨some [("Content-Type", "application/x-www-form-urlencoded"),
          ("X-Not-A-Header", "1")],
        some "a=b;c=d"⟩
    urlOrigin := fun u => u
    tabUrl := fun _ => "https://top.example/" }

/-- Concrete instantiation of `c6_post_headers_allowlist`: of the two
recovered entries only the allow-listed `Content-Type` may appear among
the merged headers. -/
theorem c6_post_headers_allowlist_witness :
    ∃ extra : List (List String),
      (onBeforeSendHeadersHandler postEnv postDetails 1).2.headers =
          (scannedRequestHeaders postDetails).1 ++ extra ∧
        (∀ q ∈ extra,
          ∃ p ∈ [("Content-Type", "application/x-www-form-urlencoded"),
              ("X-Not-A-Header", "1")],
            p.1 ∈ contentHeaders ∧
              q = [escapeString (some p.1), escapeString (some p.2)]) ∧
        (∀ p ∈ [("Content-Type", "application/x-www-form-urlencoded"),
            ("X-Not-A-Header", "1")],
          p.1 ∈ contentHeaders →
            [escapeString (some p.1), escapeString (some p.2)] ∈ extra) ∧
        (∀ p ∈ [("Content-Type", "application/x-www-form-urlencoded"),
            ("X-Not-A-Header", "1")],
          p.1 ∉ contentHeaders →
            [escapeString (some p.1), escapeString (some p.2)] ∉ extra) :=
  c6_post_headers_allowlist postEnv 1 postDetails "a=b&c=d"
    [("Content-Type", "application/x-www-form-urlencoded"),
      ("X-Not-A-Header", "1")]
    (some "a=b;c=d") rfl (by decide) rfl rfl rfl
